import Mathlib

/-! Shallow embedding of the LINE-bot webhook pipeline (`src/main.py`) and proofs
about its routing, extraction, calendar, notes and audio-handling behaviour.

External collaborators (the OpenAI chat/whisper APIs, the Google Calendar
insert, the Notion page create, the LINE blob download, `datetime.fromisoformat`)
are modelled as fields of an `Env` record: each fallible call is a function
returning `Except String α`, where `Except.error msg` stands for the Python
call raising an exception whose `str(e)` is `msg`.  Local operations (writing
the downloaded bytes to the temporary file, deleting it, sending the reply over
an already-open API client) are modelled as non-failing.  Environment variables
are `Option String` fields (`none` = unset).
-/

set_option autoImplicit false

namespace LineBot

/-- Characters stripped by Python `str.strip()` (ASCII whitespace subset;
the unicode space classes Python also strips do not appear in the claims). -/
def isPySpace (c : Char) : Bool :=
  c = ' ' || c = '\t' || c = '\n' || c = '\r' || c = '\x0B' || c = '\x0C'

/-- Python `str.strip()` on a character list. -/
def pyStripList (l : List Char) : List Char :=
  ((l.dropWhile isPySpace).reverse.dropWhile isPySpace).reverse

/-- Python `str.strip()`: removes leading and trailing whitespace. -/
def pyStrip (s : String) : String :=
  ⟨pyStripList s.data⟩

/-- Python `s.startswith(p)`, character-wise. -/
def pyStartsWith (s p : String) : Bool :=
  p.data.isPrefixOf s.data

/-- Python slicing `s[n:]`, character-wise. -/
def pyDrop (s : String) (n : Nat) : String :=
  ⟨s.data.drop n⟩

/-- Python slicing `s[:n]`, character-wise. -/
def pyTake (s : String) (n : Nat) : String :=
  ⟨s.data.take n⟩

/-- A Python `datetime` as far as the program inspects it: an abstract naive
wall-clock reading plus an optional attached timezone (`tzinfo`).
`tzinfo = none` models a timezone-naive datetime. -/
structure PyDatetime where
  wall : Int
  tzinfo : Option String
  deriving DecidableEq

/-- Model of `pytz.timezone(name).localize(dt)`: attaches the timezone to a naive
datetime without changing its wall-clock fields (`main.py` lines 142-145). -/
def localize (tzname : String) (d : PyDatetime) : PyDatetime :=
  { d with tzinfo := some tzname }

/-- The parsed `arguments` JSON object of the first tool call
(`main.py` line 118).  Each field is `none` when the key is absent. -/
structure ToolArgs where
  has_event : Option Bool
  title : Option String
  start_time : Option String
  end_time : Option String
  location : Option String
  deriving DecidableEq

/-- Outcome of the `openai_client.chat.completions.create` call in
`parse_calendar_event` (`main.py` lines 104-118), as observed by the code:
the call raises, the response has no tool calls, `json.loads` raises on the
arguments string, or the arguments parse into an object. -/
inductive ExtractionOutcome where
  | raises (msg : String)
  | noToolCalls
  | badJson (msg : String)
  | args (a : ToolArgs)
  deriving DecidableEq

/-- The dict returned by `parse_calendar_event` on success
(`main.py` lines 122-127). -/
structure CalendarEventData where
  title : String
  start_time : String
  end_time : String
  location : Option String
  deriving DecidableEq

/-- The event body handed to `calendar_service.events().insert`
(`main.py` lines 147-161).  `dateTime` fields keep the `PyDatetime` value
whose `.isoformat()` the code serializes (the rendering is injective, so
nothing is lost by keeping the datetime itself). -/
structure EventPayload where
  summary : String
  startDateTime : PyDatetime
  startTimeZone : String
  endDateTime : PyDatetime
  endTimeZone : String
  location : Option String
  remindersUseDefault : Bool
  deriving DecidableEq

/-- The created-event response the code reads fields from
(`main.py` lines 169-175): `id`, `.get('htmlLink', '')`, `summary`,
`start.dateTime`. -/
structure CreatedEvent where
  id : String
  htmlLink : Option String
  summary : String
  startDateTime : String
  deriving DecidableEq

/-- The two shapes of dict `add_calendar_event` returns
(`main.py` lines 169-178). -/
inductive CalendarWriteResult where
  | ok (event_id event_link summary start : String)
  | err (error : String)
  deriving DecidableEq

/-- The Notion page properties built by `save_to_notion`
(`main.py` lines 222-251): title (摘要), full content (內容),
date (日期) and type tag (類型). -/
structure NotionProperties where
  titleContent : String
  fullContent : String
  dateStart : String
  typeName : String
  deriving DecidableEq

/-- The Notion page-create response fields the code reads
(`main.py` lines 258-262). -/
structure PageRef where
  id : String
  url : String
  deriving DecidableEq

/-- The two shapes of dict `save_to_notion` returns
(`main.py` lines 258-265). -/
inductive NoteWriteResult where
  | ok (page_id url : String)
  | err (error : String)
  deriving DecidableEq

/-- The process environment and external collaborators, fixed for the handling
of one inbound message.  Booleans model the truthiness of the global
`calendar_service` and `notion_client` singletons; `Except.error` models the
collaborator call raising. -/
structure Env where
  timezoneVar : Option String
  calendarIdVar : Option String
  databaseIdVar : Option String
  notion_client : Bool
  calendar_service : Bool
  classify : String → ExtractionOutcome
  fromiso : String → Except String PyDatetime
  insert : String → EventPayload → Except String CreatedEvent
  notionCreate : String → NotionProperties → Except String PageRef
  nowIso : String
  getContent : Except String String
  transcribe : String → Except String String

/-- Model of `parse_calendar_event` (`main.py` lines 68-130).  The whole body is inside
`try/except Exception: return None`, so an API fault, a `json.loads` failure,
and a `KeyError` from `args['title']`, `args['start_time']` or
`args['end_time']` all return `None`; `if not args.get('has_event')` returns
`None` when the key is absent or false. -/
def parse_calendar_event (env : Env) (text : String) : Option CalendarEventData :=
  match env.classify text with
  | .raises _ => none
  | .noToolCalls => none
  | .badJson _ => none
  | .args a =>
    if a.has_event = some true then
      match a.title, a.start_time, a.end_time with
      | some t, some s, some e =>
        some { title := t, start_time := s, end_time := e, location := a.location }
      | _, _, _ => none
    else none

/-- Model of `add_calendar_event` (`main.py` lines 133-178).  Returns the result dict
and, when both timestamps parsed so that a submission was attempted, the event
payload handed to the calendar collaborator.  The body is wrapped in
`try/except Exception as e: return {'success': False, 'error': str(e)}`. -/
def add_calendar_event (env : Env) (ed : CalendarEventData) :
    CalendarWriteResult × Option EventPayload :=
  let tzname := env.timezoneVar.getD "Asia/Taipei"
  match env.fromiso ed.start_time with
  | .error e => (.err e, none)
  | .ok start_dt =>
    match env.fromiso ed.end_time with
    | .error e => (.err e, none)
    | .ok end_dt =>
      let start_dt := if start_dt.tzinfo = none then localize tzname start_dt else start_dt
      let end_dt := if end_dt.tzinfo = none then localize tzname end_dt else end_dt
      let event : EventPayload :=
        { summary := ed.title
          startDateTime := start_dt
          startTimeZone := tzname
          endDateTime := end_dt
          endTimeZone := tzname
          location := match ed.location with
            | some l => if l = "" then none else some l
            | none => none
          remindersUseDefault := true }
      let calendar_id := env.calendarIdVar.getD "primary"
      match env.insert calendar_id event with
      | .error e => (.err e, some event)
      | .ok created =>
        (.ok created.id (created.htmlLink.getD "") created.summary created.startDateTime,
          some event)

/-- The properties dict built by `save_to_notion` (`main.py` lines 222-251):
the title is `transcription[:100]` for nonempty content and the placeholder
空白內容 otherwise; the full content, the current timestamp and the type tag
are stored alongside. -/
def notionProps (env : Env) (transcription : String) (note_type : String) : NotionProperties :=
  { titleContent := if transcription.length > 0 then pyTake transcription 100 else "空白內容"
    fullContent := transcription
    dateStart := env.nowIso
    typeName := note_type }

/-- Model of `save_to_notion` (`main.py` lines 208-265).  Returns the result dict and,
when a page create was attempted, the properties written.  `if not database_id`
fails on an unset or empty variable. -/
def save_to_notion (env : Env) (transcription : String) (note_type : String) :
    NoteWriteResult × Option NotionProperties :=
  if env.notion_client = false then
    (.err "Notion client not initialized", none)
  else
    match env.databaseIdVar with
    | none => (.err "NOTION_DATABASE_ID not set", none)
    | some db =>
      if db = "" then (.err "NOTION_DATABASE_ID not set", none)
      else
        match env.notionCreate db (notionProps env transcription note_type) with
        | .error e => (.err e, some (notionProps env transcription note_type))
        | .ok page => (.ok page.id page.url, some (notionProps env transcription note_type))

/-- Model of `process_message_for_calendar` (`main.py` lines 181-205): extract, commit,
and on any extracted event reply with the success or failure rendering and
return `True`; the replies it sends are returned as a list. -/
def process_message_for_calendar (env : Env) (text : String) : Bool × List String :=
  match parse_calendar_event env text with
  | none => (false, [])
  | some ed =>
    let result := (add_calendar_event env ed).1
    let message :=
      match result with
      | .ok _ lk s st =>
        "✅ 已新增行事曆事件！\n\n標題：" ++ s ++ "\n時間：" ++ st ++ "\n連結：" ++ lk
      | .err e => "❌ 新增行事曆失敗\n錯誤：" ++ e
    (true, [message])

/-- Which routing branch of the text handler consumed the message. -/
inductive Route where
  | note
  | calendar
  | echo
  deriving DecidableEq

/-- Observable trace of one run of the text handler: the reply texts sent, the
`(content, note_type)` argument of the `save_to_notion` call if one was made,
whether `parse_calendar_event` was invoked, and the branch taken. -/
structure TextTrace where
  replies : List String
  noteCall : Option (String × String)
  extractorInvoked : Bool
  route : Route
  deriving DecidableEq

/-- Model of `handle_message` (`main.py` lines 283-324): the `/a ` branch saves to
Notion and replies; otherwise, when `calendar_service` is truthy and
`process_message_for_calendar` returns `True` the calendar reply stands;
otherwise the original text is echoed. -/
def handle_message (env : Env) (text : String) : TextTrace :=
  if pyStartsWith text "/a " then
    let content := pyStrip (pyDrop text 3)
    if env.notion_client = true ∧ content ≠ "" then
      let r := (save_to_notion env content "文字筆記").1
      let reply_text :=
        match r with
        | .ok _ url => "📝 已儲存到 Notion\n\n" ++ content ++ "\n\n" ++ url
        | .err e => "⚠️ Notion 儲存失敗: " ++ e
      { replies := [reply_text], noteCall := some (content, "文字筆記")
        extractorInvoked := false, route := .note }
    else
      { replies := ["❌ Notion 未設定或內容為空"], noteCall := none
        extractorInvoked := false, route := .note }
  else if env.calendar_service = true then
    let pr := process_message_for_calendar env text
    if pr.1 = true then
      { replies := pr.2, noteCall := none, extractorInvoked := true, route := .calendar }
    else
      { replies := [text], noteCall := none, extractorInvoked := true, route := .echo }
  else
    { replies := [text], noteCall := none, extractorInvoked := false, route := .echo }

/-- The fixed apology sent by the audio handler's `except` block
(`main.py` line 388). -/
def transcriptionErrorReply : String :=
  "抱歉，語音轉文字時發生錯誤。\nSorry, an error occurred during transcription."

/-- Observable trace of one run of the audio handler: replies sent, whether the
temporary audio file was created, whether it still exists after the handler
returns, whether `parse_calendar_event` was invoked, and the
`(content, note_type)` argument of the `save_to_notion` call if one was made. -/
structure AudioTrace where
  replies : List String
  tempCreated : Bool
  tempExists : Bool
  extractorInvoked : Bool
  noteCall : Option (String × String)
  deriving DecidableEq

/-- Model of `handle_audio_message` (`main.py` lines 327-390).  Download the blob, write
it to a `NamedTemporaryFile(delete=False)`, then inside `try ... finally
unlink` transcribe, save the stripped transcript to Notion when possible, and
reply; any exception is caught by the outer `except`, which replies with the
fixed apology.  `parse_calendar_event` is never called on this path. -/
def handle_audio_message (env : Env) : AudioTrace :=
  match env.getContent with
  | .error _ =>
    { replies := [transcriptionErrorReply], tempCreated := false, tempExists := false
      extractorInvoked := false, noteCall := none }
  | .ok audio_content =>
    match env.transcribe audio_content with
    | .error _ =>
      { replies := [transcriptionErrorReply], tempCreated := true, tempExists := false
        extractorInvoked := false, noteCall := none }
    | .ok transcription =>
      let content := pyStrip transcription
      if env.notion_client = true ∧ content ≠ "" then
        let r := (save_to_notion env content "語音筆記").1
        let reply_text :=
          match r with
          | .ok _ url =>
            "🎤 語音轉錄：\n" ++ content ++ "\n\n✅ 已儲存到 Notion\n" ++ url
          | .err e =>
            "🎤 語音轉錄：\n" ++ content ++ "\n\n⚠️ Notion 儲存失敗: " ++ e
        { replies := [reply_text], tempCreated := true, tempExists := false
          extractorInvoked := false, noteCall := some (content, "語音筆記") }
      else
        { replies := ["🎤 語音轉錄：\n" ++ content], tempCreated := true, tempExists := false
          extractorInvoked := false, noteCall := none }

end LineBot

namespace LineBot

/-- Helper: when `process_message_for_calendar` reports `True` it sent exactly
one reply, and when it reports `False` it sent none. -/
theorem process_reply_length (env : Env) (t : String) :
    ((process_message_for_calendar env t).1 = true →
      (process_message_for_calendar env t).2.length = 1) ∧
    ((process_message_for_calendar env t).1 = false →
      (process_message_for_calendar env t).2 = []) := by
  unfold process_message_for_calendar
  cases parse_calendar_event env t <;> simp

/-- C1: for every environment and every inbound message that reached a handler,
the text handler and the audio handler each send exactly one reply: every
control path issues one reply call, none returns silently, none replies twice.
(Reply transmission itself is modelled as non-failing.) -/
theorem c1_exactly_one_reply (env : Env) (text : String) :
    (handle_message env text).replies.length = 1 ∧
    (handle_audio_message env).replies.length = 1 := by
  constructor
  · simp only [handle_message]
    split
    · split <;> simp
    · split
      · split
        · rename_i htrue
          simpa using (process_reply_length env text).1 htrue
        · simp
      · simp
  · rcases h1 : env.getContent with e | b
    · simp [handle_audio_message, h1]
    · rcases h2 : env.transcribe b with e | t
      · simp [handle_audio_message, h1, h2]
      · simp only [handle_audio_message, h1, h2]
        split <;> simp

/-- C3: after the audio handler returns — transcription succeeded, transcription
raised, the Notion write failed, or the download raised — the temporary audio
file no longer exists on disk. -/
theorem c3_temp_file_gone (env : Env) :
    (handle_audio_message env).tempExists = false := by
  rcases h1 : env.getContent with e | b
  · simp [handle_audio_message, h1]
  · rcases h2 : env.transcribe b with e | t
    · simp [handle_audio_message, h1, h2]
    · simp only [handle_audio_message, h1, h2]
      split <;> simp

/-- C4: the intent extractor returns `none` whenever the structured-extraction
call raises, yields no tool call, yields an unparseable payload, or yields
`has_event` absent or false — all indistinguishable to the caller. -/
theorem c4_extraction_normalized_to_none (env : Env) (text : String) :
    (∀ m, env.classify text = ExtractionOutcome.raises m →
      parse_calendar_event env text = none) ∧
    (env.classify text = ExtractionOutcome.noToolCalls →
      parse_calendar_event env text = none) ∧
    (∀ m, env.classify text = ExtractionOutcome.badJson m →
      parse_calendar_event env text = none) ∧
    (∀ a, env.classify text = ExtractionOutcome.args a → a.has_event ≠ some true →
      parse_calendar_event env text = none) := by
  refine ⟨?_, ?_, ?_, ?_⟩
  · intro m h; simp [parse_calendar_event, h]
  · intro h; simp [parse_calendar_event, h]
  · intro m h; simp [parse_calendar_event, h]
  · intro a h hne; simp [parse_calendar_event, h, hne]

end LineBot

namespace LineBot

/-- C5: the calendar commit never raises past its boundary — a timestamp that
fails to parse or a collaborator fault yields `err` carrying the fault's own
message — and once the extractor yields an event the router's calendar path is
terminal: `process_message_for_calendar` reports `True` with exactly one reply
(success or failure rendering), and `handle_message` takes the calendar route,
never falling through to echo. -/
theorem c5_calendar_failures_are_terminal (env : Env) (ed : CalendarEventData)
    (text : String) :
    (∀ e, env.fromiso ed.start_time = Except.error e →
      add_calendar_event env ed = (CalendarWriteResult.err e, none)) ∧
    (∀ e pay, (add_calendar_event env ed).2 = some pay →
      env.insert (env.calendarIdVar.getD "primary") pay = Except.error e →
      (add_calendar_event env ed).1 = CalendarWriteResult.err e) ∧
    (parse_calendar_event env text = some ed →
      (process_message_for_calendar env text).1 = true ∧
      (process_message_for_calendar env text).2.length = 1) ∧
    (pyStartsWith text "/a " = false → env.calendar_service = true →
      parse_calendar_event env text = some ed →
      (handle_message env text).route = Route.calendar) := by
  refine ⟨?_, ?_, ?_, ?_⟩
  · intro e h
    simp [add_calendar_event, h]
  · intro e pay hpay hins
    rcases hs : env.fromiso ed.start_time with es | sdt
    · simp [add_calendar_event, hs] at hpay
    · rcases he : env.fromiso ed.end_time with ee | edt
      · simp [add_calendar_event, hs, he] at hpay
      · simp only [add_calendar_event, hs, he] at hpay ⊢
        split at hpay <;> simp at hpay <;> subst hpay <;> simp [hins] <;>
          rename_i heq <;> rw [hins] at heq <;> simp_all
  · intro h
    simp [process_message_for_calendar, h]
  · intro h1 h2 h3
    have hp : (process_message_for_calendar env text).1 = true := by
      simp [process_message_for_calendar, h3]
    simp [handle_message, h1, h2, hp]

/-- C6: when a submitted timestamp parses timezone-naive it is localized to the
configured timezone (default `Asia/Taipei`) with its wall-clock reading
unchanged — never interpreted as UTC — and a timezone-aware timestamp is left
untouched; the payload's timeZone fields always carry the configured zone. -/
theorem c6_naive_timestamps_localized (env : Env) (ed : CalendarEventData)
    (r : CalendarWriteResult) (pay : EventPayload) (sdt edt : PyDatetime)
    (hres : add_calendar_event env ed = (r, some pay))
    (hs : env.fromiso ed.start_time = Except.ok sdt)
    (he : env.fromiso ed.end_time = Except.ok edt) :
    (sdt.tzinfo = none →
      pay.startDateTime = { sdt with tzinfo := some (env.timezoneVar.getD "Asia/Taipei") }) ∧
    (sdt.tzinfo ≠ none → pay.startDateTime = sdt) ∧
    (edt.tzinfo = none →
      pay.endDateTime = { edt with tzinfo := some (env.timezoneVar.getD "Asia/Taipei") }) ∧
    (edt.tzinfo ≠ none → pay.endDateTime = edt) ∧
    pay.startTimeZone = env.timezoneVar.getD "Asia/Taipei" ∧
    pay.endTimeZone = env.timezoneVar.getD "Asia/Taipei" := by
  simp only [add_calendar_event, hs, he] at hres
  have hpay : pay =
      { summary := ed.title
        startDateTime := if sdt.tzinfo = none then
          localize (env.timezoneVar.getD "Asia/Taipei") sdt else sdt
        startTimeZone := env.timezoneVar.getD "Asia/Taipei"
        endDateTime := if edt.tzinfo = none then
          localize (env.timezoneVar.getD "Asia/Taipei") edt else edt
        endTimeZone := env.timezoneVar.getD "Asia/Taipei"
        location := match ed.location with
          | some l => if l = "" then none else some l
          | none => none
        remindersUseDefault := true } := by
    rcases hi : env.insert (env.calendarIdVar.getD "primary")
        { summary := ed.title
          startDateTime := if sdt.tzinfo = none then
            localize (env.timezoneVar.getD "Asia/Taipei") sdt else sdt
          startTimeZone := env.timezoneVar.getD "Asia/Taipei"
          endDateTime := if edt.tzinfo = none then
            localize (env.timezoneVar.getD "Asia/Taipei") edt else edt
          endTimeZone := env.timezoneVar.getD "Asia/Taipei"
          location := match ed.location with
            | some l => if l = "" then none else some l
            | none => none
          remindersUseDefault := true } with ei | created <;>
      simp only [hi] at hres <;> simp at hres <;> exact hres.2.symm
  subst hpay
  refine ⟨?_, ?_, ?_, ?_, rfl, rfl⟩
  · intro h; simp [h, localize]
  · intro h; simp [h]
  · intro h; simp [h, localize]
  · intro h; simp [h]

end LineBot

namespace LineBot

/-- Helper: a nonempty string has positive length. -/
theorem string_pos_of_ne_empty (s : String) (h : s ≠ "") : 0 < s.length := by
  cases s with
  | mk data =>
    cases data with
    | nil => exact absurd rfl h
    | cons c cs => simp [String.length]

/-- C7: a text message beginning with the literal 3-character "/a " is consumed
by the notes branch — the intent extractor and the echo are never reached — and
whenever `save_to_notion` is invoked its content argument is the input minus its
first 3 characters, whitespace-stripped, with tag 文字筆記. -/
theorem c7_slash_a_routes_to_notes (env : Env) (text : String)
    (h : pyStartsWith text "/a " = true) :
    (handle_message env text).route = Route.note ∧
    (handle_message env text).extractorInvoked = false ∧
    (env.notion_client = true → pyStrip (pyDrop text 3) ≠ "" →
      (handle_message env text).noteCall = some (pyStrip (pyDrop text 3), "文字筆記")) ∧
    (∀ c tag, (handle_message env text).noteCall = some (c, tag) →
      c = pyStrip (pyDrop text 3) ∧ tag = "文字筆記") := by
  simp only [handle_message, h, if_true]
  refine ⟨?_, ?_, ?_, ?_⟩
  · split <;> rfl
  · split <;> rfl
  · intro hn hc
    rw [if_pos ⟨hn, hc⟩]
  · intro c tag hcall
    split at hcall <;> simp at hcall
    exact ⟨hcall.1.symm, hcall.2.symm⟩

/-- C10: a text message without the "/a " command that yields no extracted
event — or arrives while the calendar collaborator is unconfigured — is echoed
back verbatim as the only reply. -/
theorem c10_echo_verbatim (env : Env) (text : String)
    (h1 : pyStartsWith text "/a " = false)
    (h2 : env.calendar_service = false ∨ parse_calendar_event env text = none) :
    (handle_message env text).replies = [text] := by
  rcases h2 with hc | hp
  · simp [handle_message, h1, hc]
  · by_cases hc : env.calendar_service = true
    · have hfalse : (process_message_for_calendar env text).1 = false := by
        simp [process_message_for_calendar, hp]
      simp [handle_message, h1, hc, hfalse]
    · simp [handle_message, h1, hc]

/-- C2 (amended): a successfully transcribed audio message is never routed
through the intent extractor; the stripped transcript goes straight to the
Notes Action with tag 語音筆記 when the notion client is configured and the
stripped transcript is nonempty, else the reply renders the transcript only. -/
theorem c2_audio_bypasses_extractor (env : Env) (b t : String)
    (hb : env.getContent = Except.ok b)
    (ht : env.transcribe b = Except.ok t) :
    (handle_audio_message env).extractorInvoked = false ∧
    (env.notion_client = true → pyStrip t ≠ "" →
      (handle_audio_message env).noteCall = some (pyStrip t, "語音筆記")) ∧
    (env.notion_client = false ∨ pyStrip t = "" →
      (handle_audio_message env).noteCall = none ∧
      (handle_audio_message env).replies = ["🎤 語音轉錄：\n" ++ pyStrip t]) := by
  simp only [handle_audio_message, hb, ht]
  refine ⟨?_, ?_, ?_⟩
  · split <;> rfl
  · intro hn hc
    rw [if_pos ⟨hn, hc⟩]
  · intro hdis
    have hneg : ¬ (env.notion_client = true ∧ pyStrip t ≠ "") := by
      rcases hdis with hn | hc
      · exact fun hand => by simp [hn] at hand
      · exact fun hand => hand.2 hc
    rw [if_neg hneg]
    exact ⟨rfl, rfl⟩

/-- C8 (amended): `save_to_notion` itself guards only on the notion client and
the database id — unconfigured client or unset database id return a failure
without any page create; every attempted write preserves the full content and
the tag, titling it with the first 100 characters of nonempty content and the
placeholder 空白內容 for empty content.  The empty-content guard lives in the
caller: the `/a ` branch of `handle_message` skips the commit entirely and
replies with the fixed "not configured or empty" failure message. -/
theorem c8_notes_guards (env : Env) (content tag : String) :
    (env.notion_client = false →
      save_to_notion env content tag = (NoteWriteResult.err "Notion client not initialized", none)) ∧
    (env.notion_client = true → env.databaseIdVar = none →
      save_to_notion env content tag = (NoteWriteResult.err "NOTION_DATABASE_ID not set", none)) ∧
    (∀ r props, save_to_notion env content tag = (r, some props) →
      props.fullContent = content ∧ props.typeName = tag ∧
      (content ≠ "" → props.titleContent = pyTake content 100) ∧
      (content = "" → props.titleContent = "空白內容")) ∧
    (∀ text, pyStartsWith text "/a " = true → pyStrip (pyDrop text 3) = "" →
      (handle_message env text).noteCall = none ∧
      (handle_message env text).replies = ["❌ Notion 未設定或內容為空"]) := by
  refine ⟨?_, ?_, ?_, ?_⟩
  · intro h; simp [save_to_notion, h]
  · intro h1 h2; simp [save_to_notion, h1, h2]
  · intro r props hsave
    rcases hn : env.notion_client with _ | _
    · simp [save_to_notion, hn] at hsave
    · rcases hd : env.databaseIdVar with _ | db
      · simp [save_to_notion, hn, hd] at hsave
      · by_cases hdb : db = ""
        · simp [save_to_notion, hn, hd, hdb] at hsave
        · simp only [save_to_notion, hn, hd] at hsave
          rw [if_neg hdb] at hsave
          rcases hcr : env.notionCreate db (notionProps env content tag) with e | page <;>
            rw [hcr] at hsave <;> simp at hsave <;> obtain ⟨-, hprops⟩ := hsave <;>
            subst hprops <;> refine ⟨rfl, rfl, ?_, ?_⟩
          · intro hc
            have hlen : 0 < content.length := string_pos_of_ne_empty content hc
            simp only [notionProps, gt_iff_lt, hlen, if_true]
          · intro hc
            subst hc
            rfl
          · intro hc
            have hlen : 0 < content.length := string_pos_of_ne_empty content hc
            simp only [notionProps, gt_iff_lt, hlen, if_true]
          · intro hc
            subst hc
            rfl
  · intro text hpre hempty
    have hneg : ¬ (env.notion_client = true ∧ pyStrip (pyDrop text 3) ≠ "") := by
      intro hand; exact hand.2 hempty
    simp only [handle_message, hpre, if_true]
    rw [if_neg hneg]
    exact ⟨rfl, rfl⟩

end LineBot

namespace LineBot

/-- C9 (amended): when the structured response reports `has_event=true` but
carries no `end_time`, the extractor returns `none` — the `KeyError` raised by
`args['end_time']` is swallowed by the catch-all and normalized to `None` —
rather than a record with a defaulted one-hour duration; the 1-hour default
exists only as an instruction to the extraction capability inside the prompt,
not as code applied to the response. -/
theorem c9_missing_end_time_yields_none (env : Env) (text : String) (a : ToolArgs)
    (h1 : env.classify text = ExtractionOutcome.args a)
    (h2 : a.has_event = some true) (h3 : a.end_time = none) :
    parse_calendar_event env text = none := by
  rcases hti : a.title with _ | t0 <;> rcases hst : a.start_time with _ | s0 <;>
    simp [parse_calendar_event, h1, h2, h3, hti, hst]

/-- A fully configured baseline environment: notion and calendar collaborators
present, no TIMEZONE or GOOGLE_CALENDAR_ID overrides, extraction finds no tool
call, timestamps fail to parse, the calendar insert faults, the notion create
succeeds, audio downloads and transcribes. -/
def baseEnv : Env :=
  { timezoneVar := none
    calendarIdVar := none
    databaseIdVar := some "db-main"
    notion_client := true
    calendar_service := true
    classify := fun _ => .noToolCalls
    fromiso := fun _ => .error "Invalid isoformat string"
    insert := fun _ _ => .error "calendar unavailable"
    notionCreate := fun _ _ => .ok { id := "page-1", url := "https://notion.example/page-1" }
    nowIso := "2025-10-12T09:00:00+08:00"
    getContent := .ok "audio-bytes"
    transcribe := fun _ => .ok "hello voice" }

/-- Environment whose extraction call raises. -/
def envRaises : Env :=
  { baseEnv with classify := fun _ => .raises "api timeout" }

/-- Environment whose extraction yields unparseable tool-call arguments. -/
def envBadJson : Env :=
  { baseEnv with classify := fun _ => .badJson "Expecting value" }

/-- Tool-call arguments reporting no event. -/
def argsNoEvent : ToolArgs :=
  { has_event := some false, title := some "閒聊", start_time := none,
    end_time := none, location := none }

/-- Environment whose extraction answers `has_event=false`. -/
def envNoEvent : Env :=
  { baseEnv with classify := fun _ => .args argsNoEvent }

/-- Tool-call arguments reporting a complete event. -/
def argsEvent : ToolArgs :=
  { has_event := some true, title := some "開會",
    start_time := some "bad-start", end_time := some "bad-end",
    location := none }

/-- Environment whose extraction finds an event with both timestamps present
(but the timestamps fail to parse, as in `baseEnv`). -/
def envEvent : Env :=
  { baseEnv with classify := fun _ => .args argsEvent }

/-- The event record `envEvent`'s extraction produces. -/
def edEvent : CalendarEventData :=
  { title := "開會", start_time := "bad-start", end_time := "bad-end", location := none }

/-- Like `envEvent` but timestamps parse to a naive datetime, so the calendar
insert (which faults) is reached. -/
def envInsertFault : Env :=
  { envEvent with fromiso := fun _ => .ok { wall := 900, tzinfo := none } }

/-- The created-event response returned in the timezone scenario. -/
def createdTz : CreatedEvent :=
  { id := "ev-1", htmlLink := some "https://cal.example/ev-1",
    summary := "開會", startDateTime := "2025-10-13T15:00:00+08:00" }

/-- Environment for the timezone claim: the start timestamp parses naive, the
end timestamp parses timezone-aware, and the insert succeeds. -/
def envTz : Env :=
  { baseEnv with
      fromiso := fun s =>
        if s = "naive-start" then .ok { wall := 915, tzinfo := none }
        else .ok { wall := 1015, tzinfo := some "+05:00" }
      insert := fun _ _ => .ok createdTz }

/-- The event record submitted in the timezone scenario. -/
def edTz : CalendarEventData :=
  { title := "開會", start_time := "naive-start", end_time := "aware-end", location := none }

/-- The payload `add_calendar_event` builds in the timezone scenario. -/
def payTz : EventPayload :=
  { summary := "開會"
    startDateTime := { wall := 915, tzinfo := some "Asia/Taipei" }
    startTimeZone := "Asia/Taipei"
    endDateTime := { wall := 1015, tzinfo := some "+05:00" }
    endTimeZone := "Asia/Taipei"
    location := none
    remindersUseDefault := true }

/-- Environment with the notion client absent. -/
def envNoNotion : Env :=
  { baseEnv with notion_client := false }

/-- Environment with the notion database id unset. -/
def envNoDb : Env :=
  { baseEnv with databaseIdVar := none }

/-- Environment whose audio transcript would describe an event, with the
calendar collaborator configured and extraction primed to detect it. -/
def envVoice : Env :=
  { envEvent with transcribe := fun _ => .ok "明天3點開會" }

/-- C2 (counterexample): with the calendar collaborator configured and a
transcript that extraction would classify as an event, the audio handler never
invokes the intent extractor and delegates the transcript straight to the
Notes Action with tag 語音筆記 — refuting the claim that transcripts are routed
as text through the extractor. -/
theorem c2_counterexample :
    envVoice.calendar_service = true ∧
    (handle_audio_message envVoice).extractorInvoked = false ∧
    (handle_audio_message envVoice).noteCall = some ("明天3點開會", "語音筆記") := by
  refine ⟨rfl, rfl, ?_⟩
  rfl

/-- C2 (witness): instance of the amended theorem on `envVoice`. -/
theorem c2_witness :
    (handle_audio_message envVoice).extractorInvoked = false ∧
    (handle_audio_message envVoice).noteCall = some (pyStrip "明天3點開會", "語音筆記") :=
  ⟨(c2_audio_bypasses_extractor envVoice "audio-bytes" "明天3點開會" rfl rfl).1,
   (c2_audio_bypasses_extractor envVoice "audio-bytes" "明天3點開會" rfl rfl).2.1 rfl
     (by decide)⟩

/-- C4 (witness): the four normalization cases at concrete environments. -/
theorem c4_witness :
    parse_calendar_event envRaises "hello" = none ∧
    parse_calendar_event baseEnv "hello" = none ∧
    parse_calendar_event envBadJson "hello" = none ∧
    parse_calendar_event envNoEvent "hello" = none :=
  ⟨(c4_extraction_normalized_to_none envRaises "hello").1 "api timeout" rfl,
   (c4_extraction_normalized_to_none baseEnv "hello").2.1 rfl,
   (c4_extraction_normalized_to_none envBadJson "hello").2.2.1 "Expecting value" rfl,
   (c4_extraction_normalized_to_none envNoEvent "hello").2.2.2
     argsNoEvent rfl (by decide)⟩

/-- C5 (witness): a malformed timestamp resolves to `err` with its message; an
insert fault resolves to `err` with its message; an extracted event makes the
calendar path terminal with one reply and the calendar route. -/
theorem c5_witness :
    add_calendar_event envEvent edEvent = (CalendarWriteResult.err "Invalid isoformat string", none) ∧
    (add_calendar_event envInsertFault edEvent).1 = CalendarWriteResult.err "calendar unavailable" ∧
    (process_message_for_calendar envEvent "明天開會").1 = true ∧
    (handle_message envEvent "明天開會").route = Route.calendar :=
  ⟨(c5_calendar_failures_are_terminal envEvent edEvent "明天開會").1 "Invalid isoformat string" rfl,
   (c5_calendar_failures_are_terminal envInsertFault edEvent "明天開會").2.1 "calendar unavailable"
     { summary := "開會"
       startDateTime := { wall := 900, tzinfo := some "Asia/Taipei" }
       startTimeZone := "Asia/Taipei"
       endDateTime := { wall := 900, tzinfo := some "Asia/Taipei" }
       endTimeZone := "Asia/Taipei"
       location := none
       remindersUseDefault := true } rfl rfl,
   ((c5_calendar_failures_are_terminal envEvent edEvent "明天開會").2.2.1 rfl).1,
   (c5_calendar_failures_are_terminal envEvent edEvent "明天開會").2.2.2 (by decide) rfl rfl⟩

/-- C6 (witness): in the timezone scenario the naive start is localized to the
default zone with its wall-clock reading intact, the aware end is untouched,
and the payload's zone field is the default. -/
theorem c6_witness :
    payTz.startDateTime = { wall := 915, tzinfo := some "Asia/Taipei" } ∧
    payTz.endDateTime = { wall := 1015, tzinfo := some "+05:00" } ∧
    payTz.startTimeZone = "Asia/Taipei" :=
  have h := c6_naive_timestamps_localized envTz edTz
      (CalendarWriteResult.ok "ev-1" "https://cal.example/ev-1" "開會" "2025-10-13T15:00:00+08:00")
      payTz { wall := 915, tzinfo := none } { wall := 1015, tzinfo := some "+05:00" }
      rfl rfl rfl
  ⟨h.1 rfl, h.2.2.2.1 (by decide), h.2.2.2.2.1⟩

/-- C7 (witness): the `/a ` routing on a concrete message. -/
theorem c7_witness :
    (handle_message baseEnv "/a  買牛奶 ").route = Route.note ∧
    (handle_message baseEnv "/a  買牛奶 ").extractorInvoked = false ∧
    (handle_message baseEnv "/a  買牛奶 ").noteCall =
      some (pyStrip (pyDrop "/a  買牛奶 " 3), "文字筆記") :=
  have h := c7_slash_a_routes_to_notes baseEnv "/a  買牛奶 " (by decide)
  ⟨h.1, h.2.1, h.2.2.1 rfl (by decide)⟩

/-- C8 (counterexample): called directly with empty content while the notion
client and database are configured, `save_to_notion` performs a write — page
created with placeholder title 空白內容 — and returns success, refuting the
claim that empty content yields a failure result with no write. -/
theorem c8_counterexample :
    (save_to_notion baseEnv "" "文字筆記").1 =
      NoteWriteResult.ok "page-1" "https://notion.example/page-1" ∧
    (save_to_notion baseEnv "" "文字筆記").2 =
      some { titleContent := "空白內容", fullContent := "",
             dateStart := "2025-10-12T09:00:00+08:00", typeName := "文字筆記" } :=
  ⟨rfl, rfl⟩

/-- C8 (witness): instances of the amended guards — unconfigured client,
unset database id, title/content preservation on an attempted write, and the
caller-side empty-content guard. -/
theorem c8_witness :
    save_to_notion envNoNotion "hello" "文字筆記" =
      (NoteWriteResult.err "Notion client not initialized", none) ∧
    save_to_notion envNoDb "hello" "文字筆記" =
      (NoteWriteResult.err "NOTION_DATABASE_ID not set", none) ∧
    (notionProps baseEnv "hello" "文字筆記").fullContent = "hello" ∧
    (notionProps baseEnv "hello" "文字筆記").titleContent = pyTake "hello" 100 ∧
    (handle_message baseEnv "/a    ").noteCall = none ∧
    (handle_message baseEnv "/a    ").replies = ["❌ Notion 未設定或內容為空"] :=
  have h3 := (c8_notes_guards baseEnv "hello" "文字筆記").2.2.1
      (NoteWriteResult.ok "page-1" "https://notion.example/page-1")
      (notionProps baseEnv "hello" "文字筆記") rfl
  have h4 := (c8_notes_guards baseEnv "hello" "文字筆記").2.2.2 "/a    " (by decide) (by decide)
  ⟨(c8_notes_guards envNoNotion "hello" "文字筆記").1 rfl,
   (c8_notes_guards envNoDb "hello" "文字筆記").2.1 rfl rfl,
   h3.1, h3.2.2.1 (by decide), h4.1, h4.2⟩

/-- Tool-call arguments reporting an event without an `end_time`. -/
def argsNoEnd : ToolArgs :=
  { has_event := some true, title := some "會議",
    start_time := some "2025-10-13T15:00:00", end_time := none,
    location := none }

/-- Environment whose extraction reports an event but omits `end_time`. -/
def envNoEnd : Env :=
  { baseEnv with classify := fun _ => .args argsNoEnd }

/-- C9 (counterexample): the structured response has `has_event=true`, a title
and a start time but no `end_time`; the extractor returns `none` instead of the
claimed record with `end_time = start_time + 1 hour`. -/
theorem c9_counterexample :
    envNoEnd.classify "明天下午3點開會" = ExtractionOutcome.args argsNoEnd ∧
    parse_calendar_event envNoEnd "明天下午3點開會" = none :=
  ⟨rfl, rfl⟩

/-- C9 (witness): instance of the amended theorem on `envNoEnd`. -/
theorem c9_witness : parse_calendar_event envNoEnd "開會" = none :=
  c9_missing_end_time_yields_none envNoEnd "開會" argsNoEnd rfl rfl rfl

/-- C10 (witness): a plain text message with no command and no detected event
is echoed verbatim. -/
theorem c10_witness : (handle_message baseEnv "hello").replies = ["hello"] :=
  c10_echo_verbatim baseEnv "hello" (by decide) (Or.inr rfl)

end LineBot
